import Mathlib

/-!
Shallow embedding of `src/lib.rs` of the gpt-function-call-demo repository:
a Slack chat bridge with an OpenAI tool-call dispatch loop.

External collaborators (the OpenAI completion endpoint, the weather HTTP
provider, the web scraper, serde_json's argument parser, the Debug formatter
and the wall clock) are modelled as components of an `Env` record; the
repository's own logic (`handler`, `chat_inner`, the tool dispatch, the
capability wrappers `get_weather` / `scraper` / `get_time_of_day`, the tool
registry `TOOLS` and the request construction) is translated function by
function.  Side effects (store set/delete, Slack sends, model calls, capability
invocations) are recorded in an explicit effect trace.  Rust panics
(`unwrap`, `HashMap` indexing) and propagated `Err` results are kept distinct,
because the handler reacts differently to them.
-/

/-- Minimal JSON value type standing for `serde_json::Value` as used by the
source: booleans (`json!(true)`), strings (`json!("false")`, schema text),
arrays and objects (the tool parameter schemas). -/
inductive Json where
  | null : Json
  | bool (b : Bool) : Json
  | str (s : String) : Json
  | arr (elems : List Json) : Json
  | obj (fields : List (String × Json)) : Json

/-- `serde_json::Value::as_bool`: `Some` only on a JSON boolean. -/
def Json.asBool : Json → Option Bool
  | .bool b => some b
  | _ => none

/-- `async_openai` request message, restricted to the variants the source
constructs: the startup system message, the per-utterance user message and
the per-tool-call function message (built with `role(Role::Function)`,
`name`, `content`).  The assistant variant exists in the library but is never
appended by this program. -/
inductive ChatCompletionRequestMessage where
  | system (content : String)
  | user (content : String)
  | assistant (content : String)
  | function (name : String) (content : String)
deriving DecidableEq

/-- `async_openai::types::FinishReason`. -/
inductive FinishReason where
  | stop | length | toolCalls | contentFilter | functionCall
deriving DecidableEq

/-- `async_openai::types::FunctionCall`: the name and raw JSON-encoded
argument payload of one model-requested tool call. -/
structure FunctionCall where
  name : String
  arguments : String
deriving DecidableEq

/-- `async_openai::types::ChatCompletionMessageToolCall`; the `id` and
`type` fields are never read by the source and are omitted. -/
structure ChatCompletionMessageToolCall where
  function : FunctionCall
deriving DecidableEq

/-- The parts of `async_openai`'s response message the source reads:
`content` and `tool_calls`. -/
structure ResponseMessage where
  content : Option String
  tool_calls : Option (List ChatCompletionMessageToolCall)
deriving DecidableEq

/-- One response choice: `finish_reason` and `message`. -/
structure Choice where
  finish_reason : Option FinishReason
  message : ResponseMessage
deriving DecidableEq

/-- `CreateChatCompletionResponse`, restricted to its `choices` list. -/
structure CreateChatCompletionResponse where
  choices : List Choice
deriving DecidableEq

/-- The function descriptor inside a tool: `ChatCompletionFunctions`
(name, description, JSON parameter schema). -/
structure ChatCompletionFunctions where
  name : String
  description : String
  parameters : Json

/-- `ChatCompletionToolType`: always `Function` here. -/
inductive ChatCompletionToolType where
  | function

/-- `async_openai::types::ChatCompletionTool`. -/
structure ChatCompletionTool where
  type : ChatCompletionToolType
  function : ChatCompletionFunctions

/-- The fixed tool registry `TOOLS` from the source, schemas transliterated
from the `json!` literals. -/
def TOOLS : List ChatCompletionTool :=
  [ { type := .function
      function :=
        { name := "getWeather"
          description := "Get weather forecast for the city passed to it"
          parameters := Json.obj
            [ ("type", Json.str "object")
            , ("properties", Json.obj
                [ ("city", Json.obj
                    [ ("type", Json.str "string")
                    , ("description", Json.str "The city specified by the user") ]) ])
            , ("required", Json.arr [Json.str "city"]) ] } }
  , { type := .function
      function :=
        { name := "scraper"
          description := "Get the text content of the webpage from the url passed to it"
          parameters := Json.obj
            [ ("type", Json.str "object")
            , ("properties", Json.obj
                [ ("url", Json.obj
                    [ ("type", Json.str "string")
                    , ("description", Json.str "The url from which to fetch the content") ]) ])
            , ("required", Json.arr [Json.str "url"]) ] } }
  , { type := .function
      function :=
        { name := "getTimeOfDay"
          description := "Get the time of day."
          parameters := Json.obj
            [ ("type", Json.str "object")
            , ("properties", Json.obj [])
            , ("required", Json.arr []) ] } } ]

/-- `CreateChatCompletionRequest` as built by the source: optional
`max_tokens`, model name, message list, optional tool list. -/
structure CreateChatCompletionRequest where
  max_tokens : Option Nat
  model : String
  messages : List ChatCompletionRequestMessage
  tools : Option (List ChatCompletionTool)

/-- Request #1 (source lines 261-266): `max_tokens(512)`, model
`gpt-3.5-turbo-1106`, the current conversation, and the tool registry.
(The source's `chat_inner` ignores its `tools` parameter and advertises the
global `TOOLS`.) -/
def mkRequest1 (messages : List ChatCompletionRequestMessage) :
    CreateChatCompletionRequest :=
  { max_tokens := some 512
    model := "gpt-3.5-turbo-1106"
    messages := messages
    tools := some TOOLS }

/-- Request #2 (source lines 327-330): model and messages only — no
`max_tokens` and no tools are set. -/
def mkRequest2 (messages : List ChatCompletionRequestMessage) :
    CreateChatCompletionRequest :=
  { max_tokens := none
    model := "gpt-3.5-turbo-1106"
    messages := messages
    tools := none }

/-! ## Capability functions -/

/-- Weather condition entry of the provider payload (`struct Weather`). -/
structure Weather where
  main : String

/-- Temperature block of the provider payload (`struct Main`). -/
structure Main where
  temp_max : ℚ
  temp_min : ℚ

/-- Wind block of the provider payload (`struct Wind`). -/
structure Wind where
  speed : ℚ

/-- Parsed weather provider payload (`struct ApiResult`).  The source's
`f64` fields are modelled as rationals; every claim about them concerns
decimal literals whose truncation is unaffected by binary rounding. -/
structure ApiResult where
  weather : List Weather
  main : Main
  wind : Wind

/-- Rust's `as i32` cast on an in-range value: truncation toward zero
(`Int.div` is T-division, which truncates toward zero). -/
def ratTruncToInt (q : ℚ) : ℤ :=
  q.num.tdiv (q.den : ℤ)

/-- The success branch of `get_weather` (source lines 163-180): the raw
string template filled with the city, the first weather-condition entry
(default `"Unknown"`), and the truncated temperatures and wind speed. -/
def weatherReport (city : String) (w : ApiResult) : String :=
  "\nToday in " ++ city ++ "\n"
    ++ (w.weather.head?.getD { main := "Unknown" }).main
    ++ "\nLow temperature: " ++ toString (ratTruncToInt w.main.temp_min)
    ++ " °C,\nHigh temperature: " ++ toString (ratTruncToInt w.main.temp_max)
    ++ " °C,\nWind Speed: " ++ toString (ratTruncToInt w.wind.speed)
    ++ " km/h"

/-- `get_weather` (source lines 161-184).  The outcome of
`get_weather_inner` — the HTTP GET plus JSON decode, which yields `None` on
transport failure, non-success status or decode failure — is passed in as
`inner`. -/
def get_weather (city : String) (inner : Option ApiResult) : String :=
  match inner with
  | some w => weatherReport city w
  | none => "No city or incorrect spelling"

/-- `scraper` (source lines 186-192): the `get_page_text` outcome is passed
in; any failure becomes the fixed fallback string, success is returned
verbatim. -/
def scraper (url : String) (fetched : Except Unit String) : String :=
  match fetched with
  | .error _ => "failed to get webpage"
  | .ok txt => txt

/-- `get_time_of_day` (source lines 194-197): `Local::now().to_rfc3339()`.
The formatted clock reading is external input and is passed in. -/
def get_time_of_day (now : String) : String :=
  now

/-! ## Substring containment (used to state the formatting claims) -/

/-- Boolean prefix test on character lists. -/
def listPrefixOf : List Char → List Char → Bool
  | [], _ => true
  | _ :: _, [] => false
  | a :: as, b :: bs => a == b && listPrefixOf as bs

/-- Boolean substring occurrence test on character lists. -/
def listContainsSub (pat : List Char) : List Char → Bool
  | [] => listPrefixOf pat []
  | b :: bs => listPrefixOf pat (b :: bs) || listContainsSub pat bs

/-- `containsSub s pat` holds when `pat` occurs contiguously in `s`. -/
def containsSub (s pat : String) : Bool :=
  listContainsSub pat.data s.data

/-- The provider payload of the weather-formatting test case. -/
def parisResult : ApiResult :=
  { weather := [{ main := "Clear" }]
    main := { temp_max := mkRat 209 10, temp_min := mkRat 107 10 }
    wind := { speed := mkRat 27 5 } }

/-- The same payload with an empty weather-condition list. -/
def parisNoCondition : ApiResult :=
  { weather := []
    main := { temp_max := mkRat 209 10, temp_min := mkRat 107 10 }
    wind := { speed := mkRat 27 5 } }

/-- The same payload with two condition entries, `Clear` first. -/
def parisTwoConditions : ApiResult :=
  { weather := [{ main := "Clear" }, { main := "Rain" }]
    main := { temp_max := mkRat 209 10, temp_min := mkRat 107 10 }
    wind := { speed := mkRat 27 5 } }

/-- C8: for the provider response `{weather:[{main:"Clear"}],
main:{temp_min:10.7, temp_max:20.9}, wind:{speed:5.4}}` and city `"Paris"`,
`get_weather` produces the full formatted report containing
"Today in Paris", "Clear", "10 °C", "20 °C" and "5 km/h"; temperatures and
wind speed are integer-truncated (10.7 → 10, 20.9 → 20, 5.4 → 5), and the
first condition entry is used, defaulting to "Unknown" on an empty list. -/
theorem weather_format_paris :
    get_weather "Paris" (some parisResult)
        = "\nToday in Paris\nClear\nLow temperature: 10 °C,\nHigh temperature: 20 °C,\nWind Speed: 5 km/h"
      ∧ containsSub (get_weather "Paris" (some parisResult)) "Today in Paris" = true
      ∧ containsSub (get_weather "Paris" (some parisResult)) "Clear" = true
      ∧ containsSub (get_weather "Paris" (some parisResult)) "10 °C" = true
      ∧ containsSub (get_weather "Paris" (some parisResult)) "20 °C" = true
      ∧ containsSub (get_weather "Paris" (some parisResult)) "5 km/h" = true
      ∧ ratTruncToInt (mkRat 107 10) = 10
      ∧ ratTruncToInt (mkRat 209 10) = 20
      ∧ ratTruncToInt (mkRat 27 5) = 5
      ∧ containsSub (get_weather "Paris" (some parisNoCondition)) "Unknown" = true
      ∧ containsSub (get_weather "Paris" (some parisTwoConditions)) "Clear" = true
      ∧ containsSub (get_weather "Paris" (some parisTwoConditions)) "Rain" = false := by
  refine ⟨?_, ?_, ?_, ?_, ?_, ?_, ?_, ?_, ?_, ?_, ?_, ?_⟩ <;> decide

/-! ## Effect traces and the external environment -/

/-- One observable side effect of handling an inbound message, in program
order: session-store writes, Slack sends, model calls, and capability
invocations (the moment the capability's I/O is performed). -/
inductive Effect where
  | storeSet (key : String) (value : Json)
  | storeDel (key : String)
  | send (workspace : String) (channel : String) (text : String)
  | modelCall (req : CreateChatCompletionRequest)
  | invokeWeather (city : String)
  | invokeScraper (url : String)
  | invokeTime

/-- True exactly on capability invocations. -/
def Effect.isInvoke : Effect → Bool
  | .invokeWeather _ => true
  | .invokeScraper _ => true
  | .invokeTime => true
  | _ => false

/-- True exactly on Slack sends. -/
def Effect.isSend : Effect → Bool
  | .send _ _ _ => true
  | _ => false

/-- True exactly on Slack sends addressed to the given workspace/channel. -/
def Effect.isSendTo (workspace channel : String) : Effect → Bool
  | .send w2 c2 _ => w2 == workspace && c2 == channel
  | _ => false

/-- The request of a model-call effect, `none` otherwise. -/
def Effect.modelCallReq : Effect → Option CreateChatCompletionRequest
  | .modelCall req => some req
  | _ => none

/-- The requests of all model calls in a trace, in order. -/
def modelCallReqs (effects : List Effect) : List CreateChatCompletionRequest :=
  effects.filterMap Effect.modelCallReq

/-- How a single inbound-message handling can fail: `panicked` models a Rust
panic (`unwrap` on `None`, `HashMap` indexing on a missing key), which aborts
the handler outright; `errored` models a propagated `Err` from `chat_inner`
(the `?` operator), which the handler's wildcard match arm swallows. -/
inductive Failure where
  | panicked
  | errored
deriving DecidableEq

/-- The external collaborators, as response functions: the completion
endpoint, the derived `Debug` formatter used for the diagnostic dump,
`serde_json`'s parse of a tool-call argument payload into a string map,
`get_weather_inner`'s combined HTTP GET + decode outcome per city,
`get_page_text`'s outcome per url, and the formatted local clock reading. -/
structure Env where
  modelRespond : CreateChatCompletionRequest → CreateChatCompletionResponse
  debugFmt : Choice → String
  parseArgs : String → Except Unit (List (String × String))
  weatherInner : String → Option ApiResult
  pageText : String → Except Unit String
  now : String

/-! ## The dispatch of one tool call (source lines 282-321) -/

/-- Result of dispatching one model-requested tool call: the function-message
content (or the failure that aborted it), the session-store value at key
`"in_chat"` afterwards, and the effects emitted, in order. -/
structure DispatchOut where
  content : Except Failure String
  store : Option Json
  effects : List Effect

/-- The `match function.name.as_str()` dispatch (source lines 285-312).
Each recognized arm deletes the `"in_chat"` key first; `getWeather` and
`scraper` then parse the raw argument payload (an `Err` propagates) and index
the parsed map (a missing key panics) before invoking the capability;
`getWeather` additionally dumps its result to the hardcoded
`("ik8", "general")` channel; an unrecognized name is a no-op yielding empty
content. -/
def dispatchToolCall (env : Env) (f : FunctionCall) (store : Option Json) :
    DispatchOut :=
  if f.name = "getWeather" then
    match env.parseArgs f.arguments with
    | .error _ => ⟨.error .errored, none, [.storeDel "in_chat"]⟩
    | .ok argument_obj =>
      match argument_obj.lookup "city" with
      | none => ⟨.error .panicked, none, [.storeDel "in_chat"]⟩
      | some city =>
        let res := get_weather city (env.weatherInner city)
        ⟨.ok res, none,
          [.storeDel "in_chat", .invokeWeather city, .send "ik8" "general" res]⟩
  else if f.name = "scraper" then
    match env.parseArgs f.arguments with
    | .error _ => ⟨.error .errored, none, [.storeDel "in_chat"]⟩
    | .ok argument_obj =>
      match argument_obj.lookup "url" with
      | none => ⟨.error .panicked, none, [.storeDel "in_chat"]⟩
      | some url =>
        ⟨.ok (scraper url (env.pageText url)), none,
          [.storeDel "in_chat", .invokeScraper url]⟩
  else if f.name = "getTimeOfDay" then
    ⟨.ok (get_time_of_day env.now), none, [.storeDel "in_chat", .invokeTime]⟩
  else
    ⟨.ok "", store, []⟩

/-- Conversation messages, session-store value and effect trace threaded
through the tool-call loop. -/
structure LoopState where
  messages : List ChatCompletionRequestMessage
  store : Option Json
  effects : List Effect

/-- The `for tool_call in tool_calls` loop (source lines 282-321): each call
is dispatched and, on success, a `Function` message carrying the call's name
and the dispatch content is appended; a failure stops the loop (the function
message of the failing call is never pushed). -/
def processToolCalls (env : Env) :
    List ChatCompletionMessageToolCall → LoopState → LoopState × Option Failure
  | [], s => (s, none)
  | tool_call :: rest, s =>
    let d := dispatchToolCall env tool_call.function s.store
    match d.content with
    | .error e => ({ s with store := d.store, effects := s.effects ++ d.effects }, some e)
    | .ok content =>
      processToolCalls env rest
        { messages := s.messages ++
            [.function tool_call.function.name content]
          store := d.store
          effects := s.effects ++ d.effects }

/-- Result of `chat_inner`: its return value (`Ok(Some)/Ok(None)/Err`, or a
panic), the conversation messages after the in-place mutations, the session
store afterwards, and the effect trace. -/
structure ChatOut where
  result : Except Failure (Option String)
  messages : List ChatCompletionRequestMessage
  store : Option Json
  effects : List Effect

/-- Request #2 and the final extraction (source lines 324-344): tools and
max_tokens are not set; `choices.get(0).unwrap()` panics on an empty choice
list; otherwise the first choice's content is returned as is. -/
def afterLoop (env : Env) (s : LoopState) : ChatOut :=
  let req2 := mkRequest2 s.messages
  let resp := env.modelRespond req2
  match resp.choices.head? with
  | none => ⟨.error .panicked, s.messages, s.store, s.effects ++ [.modelCall req2]⟩
  | some choice =>
    ⟨.ok choice.message.content, s.messages, s.store, s.effects ++ [.modelCall req2]⟩

/-- `chat_inner` (source lines 248-345).  Appends the user message, issues
request #1 (with the global `TOOLS`; the `tools` parameter of the Rust
function is ignored by its body), dumps the first choice to the hardcoded
`("ik8", "general")` channel (panicking if there is no choice), runs the
tool-call loop when the first choice's finish reason is `ToolCalls`
(panicking if `tool_calls` is absent), then issues request #2 and returns its
first choice's content. -/
def chat_inner (env : Env) (user_input : String)
    (messages : List ChatCompletionRequestMessage) (store : Option Json) :
    ChatOut :=
  let messages2 := messages ++ [.user user_input]
  let request := mkRequest1 messages2
  let chat := env.modelRespond request
  let wants_to_use_function : Bool :=
    (chat.choices.head?.map
      (fun choice => decide (choice.finish_reason = some FinishReason.toolCalls))).getD
      false
  match chat.choices.head? with
  | none => ⟨.error .panicked, messages2, store, [.modelCall request]⟩
  | some check =>
    let eff1 : List Effect :=
      [.modelCall request, .send "ik8" "general" (env.debugFmt check)]
    if wants_to_use_function then
      match check.message.tool_calls with
      | none => ⟨.error .panicked, messages2, store, eff1⟩
      | some tool_calls =>
        match processToolCalls env tool_calls ⟨messages2, store, eff1⟩ with
        | (s, some e) => ⟨.error e, s.messages, s.store, s.effects⟩
        | (s, none) => afterLoop env s
    else
      afterLoop env ⟨messages2, store, eff1⟩

/-! ## The Slack handler (source lines 130-159) -/

/-- The mutable process state the handler touches: the global `MESSAGES`
vector and the session store's `"in_chat"` value (`none` = key absent). -/
structure HandlerState where
  messages : List ChatCompletionRequestMessage
  store : Option Json

/-- Result of one handler invocation: the state afterwards, the effect
trace, and whether the invocation panicked. -/
structure HandlerOut where
  st : HandlerState
  effects : List Effect
  panicked : Bool

/-- The tail of `handler` after the gate (source lines 146-158): run
`chat_inner` on the utterance; `Ok(Some)` sends the output, `Ok(None)`
deletes `"in_chat"` and returns without sending, `Err` falls into the
wildcard arm and the still-empty `out` string is sent, a panic aborts. -/
def runChat (env : Env) (workspace channel user_input : String)
    (st : HandlerState) (eff : List Effect) : HandlerOut :=
  let r := chat_inner env user_input st.messages st.store
  match r.result with
  | .ok (some output) =>
    ⟨⟨r.messages, r.store⟩, eff ++ r.effects ++ [.send workspace channel output], false⟩
  | .ok none =>
    ⟨⟨r.messages, none⟩, eff ++ r.effects ++ [.storeDel "in_chat"], false⟩
  | .error .errored =>
    ⟨⟨r.messages, r.store⟩, eff ++ r.effects ++ [.send workspace channel ""], false⟩
  | .error .panicked =>
    ⟨⟨r.messages, r.store⟩, eff ++ r.effects, true⟩

/-- Rust's `str::starts_with` on string patterns. -/
def rustStartsWith (s pat : String) : Bool :=
  listPrefixOf pat.data s.data

/-- Rust's `String::replace` for a nonempty pattern: every non-overlapping
occurrence, scanned left to right, is replaced.  (For an empty pattern Rust
would interleave the replacement everywhere; this model leaves the string
unchanged instead — no claim exercises an empty trigger word.)  The fuel is
the input length, enough since each step consumes at least one character. -/
def replaceAllAux (pat rep : List Char) : Nat → List Char → List Char
  | 0, l => l
  | _ + 1, [] => []
  | fuel + 1, c :: rest =>
    if !pat.isEmpty && listPrefixOf pat (c :: rest) then
      rep ++ replaceAllAux pat rep fuel (List.drop (pat.length - 1) rest)
    else
      c :: replaceAllAux pat rep fuel rest

/-- Rust's `String::replace` at the `String` level. -/
def rustReplace (s pat rep : String) : String :=
  ⟨replaceAllAux pat.data rep.data s.data.length s.data⟩

/-- `handler` (source lines 130-159).  A message starting with the trigger
word sets `"in_chat"` to JSON `true` and strips every occurrence of the
trigger word from the text (`msg.replace(&trigger_word, "")`); otherwise the
gate reads `"in_chat"`, defaults a missing key to the JSON **string**
`"false"`, and calls `as_bool().unwrap()` on it — which panics when the key
is absent, and returns silently when the stored value is boolean `false`. -/
def handler (env : Env) (trigger_word workspace channel : String)
    (msg : String) (st : HandlerState) : HandlerOut :=
  if rustStartsWith msg trigger_word then
    let user_input := rustReplace msg trigger_word ""
    runChat env workspace channel user_input
      { st with store := some (Json.bool true) }
      [.storeSet "in_chat" (Json.bool true)]
  else
    match (st.store.getD (Json.str "false")).asBool with
    | none => ⟨st, [], true⟩
    | some b =>
      if !b then ⟨st, [], false⟩
      else runChat env workspace channel msg st []

/-- The one system message pushed into the global `MESSAGES` vector at
process start (source lines 30-40). -/
def initialMessages : List ChatCompletionRequestMessage :=
  [.system "Perform function requests for the user"]

/-- Process history: fold the handler over a sequence of inbound messages,
each paired with the external world it observed. -/
def runEvents (trigger_word workspace channel : String) :
    List (Env × String) → HandlerState → HandlerState
  | [], st => st
  | (env, msg) :: rest, st =>
    runEvents trigger_word workspace channel rest
      (handler env trigger_word workspace channel msg st).st

/-! ## Helper predicates and shape lemmas -/

/-- True exactly on function messages (what the tool-call loop appends). -/
def isFunctionMsg : ChatCompletionRequestMessage → Bool
  | .function _ _ => true
  | _ => false

/-- True exactly on user and function messages (the only kinds any handler
path ever appends). -/
def isConvAppend : ChatCompletionRequestMessage → Bool
  | .user _ => true
  | .function _ _ => true
  | _ => false

lemma modelCallReqs_append (a b : List Effect) :
    modelCallReqs (a ++ b) = modelCallReqs a ++ modelCallReqs b := by
  simp [modelCallReqs]

lemma dispatchToolCall_modelCallReqs (env : Env) (f : FunctionCall)
    (store : Option Json) :
    modelCallReqs (dispatchToolCall env f store).effects = [] := by
  unfold dispatchToolCall
  repeat' split
  all_goals rfl

lemma processToolCalls_shape (env : Env) (tcs : List ChatCompletionMessageToolCall) :
    ∀ s : LoopState, ∃ mt et,
      (processToolCalls env tcs s).1.messages = s.messages ++ mt ∧
      mt.all isFunctionMsg = true ∧
      (processToolCalls env tcs s).1.effects = s.effects ++ et ∧
      modelCallReqs et = [] := by
  induction tcs with
  | nil =>
    intro s
    exact ⟨[], [], by simp [processToolCalls], rfl, by simp [processToolCalls], rfl⟩
  | cons tc rest ih =>
    intro s
    unfold processToolCalls
    rcases hd : (dispatchToolCall env tc.function s.store).content with e | content
    · refine ⟨[], (dispatchToolCall env tc.function s.store).effects, ?_, rfl, ?_, ?_⟩
      · simp [hd]
      · simp [hd]
      · exact dispatchToolCall_modelCallReqs env tc.function s.store
    · obtain ⟨mt, et, h1, h2, h3, h4⟩ :=
        ih { messages := s.messages ++ [.function tc.function.name content]
             store := (dispatchToolCall env tc.function s.store).store
             effects := s.effects ++ (dispatchToolCall env tc.function s.store).effects }
      refine ⟨.function tc.function.name content :: mt,
        (dispatchToolCall env tc.function s.store).effects ++ et, ?_, ?_, ?_, ?_⟩
      · simp only [hd]
        simpa using h1
      · simpa [isFunctionMsg] using h2
      · simp only [hd]
        simpa using h3
      · simp [modelCallReqs_append, h4, dispatchToolCall_modelCallReqs]

/-- A concrete external world used by the witness theorems. -/
def witnessEnv : Env :=
  { modelRespond := fun _ => ⟨[]⟩
    debugFmt := fun _ => "dbg"
    parseArgs := fun _ => .ok []
    weatherInner := fun _ => none
    pageText := fun _ => .error ()
    now := "now" }

/-! ## C1 -/

/-- C1: dispatching any recognized tool call (`getWeather`, `scraper` or
`getTimeOfDay`) emits the `"in_chat"` store deletion as its very first
effect — before the capability is invoked and hence before the tool's result
(success string or fallback string, both captured by the arbitrary `env`) is
known — and leaves the session-store key deleted. -/
theorem dispatch_clears_flag_first (env : Env) (f : FunctionCall)
    (store : Option Json)
    (hrec : f.name = "getWeather" ∨ f.name = "scraper" ∨ f.name = "getTimeOfDay") :
    (dispatchToolCall env f store).effects.head? = some (.storeDel "in_chat") ∧
    (dispatchToolCall env f store).store = none := by
  unfold dispatchToolCall
  rcases hrec with h | h | h <;> simp only [h] <;> repeat' split
  all_goals simp_all

/-- Witness for C1: the `getTimeOfDay` dispatch in a concrete environment. -/
theorem dispatch_clears_flag_first_witness :
    (dispatchToolCall witnessEnv ⟨"getTimeOfDay", ""⟩ (some (Json.bool true))).effects.head?
        = some (.storeDel "in_chat") ∧
    (dispatchToolCall witnessEnv ⟨"getTimeOfDay", ""⟩ (some (Json.bool true))).store = none :=
  dispatch_clears_flag_first witnessEnv ⟨"getTimeOfDay", ""⟩ (some (Json.bool true))
    (Or.inr (Or.inr rfl))

lemma afterLoop_shape (env : Env) (s : LoopState) :
    (afterLoop env s).effects = s.effects ++ [.modelCall (mkRequest2 s.messages)] ∧
    (afterLoop env s).messages = s.messages := by
  cases hh : (env.modelRespond (mkRequest2 s.messages)).choices.head? <;>
    simp [afterLoop, hh]

/-! ## C2 -/

/-- C2: when the first round's first choice exists and its finish reason is
not `ToolCalls`, no capability is invoked, the effect trace is exactly model
call #1, the diagnostic dump and model call #2, the conversation gained only
the user message, and the first choice content of request #2 is returned as
is. -/
theorem no_toolcalls_still_second_round (env : Env) (user_input : String)
    (messages : List ChatCompletionRequestMessage) (store : Option Json)
    (c0 c2 : Choice)
    (h1 : (env.modelRespond (mkRequest1 (messages ++ [.user user_input]))).choices.head?
            = some c0)
    (h2 : c0.finish_reason ≠ some FinishReason.toolCalls)
    (h3 : (env.modelRespond (mkRequest2 (messages ++ [.user user_input]))).choices.head?
            = some c2) :
    (chat_inner env user_input messages store).effects =
      [.modelCall (mkRequest1 (messages ++ [.user user_input])),
       .send "ik8" "general" (env.debugFmt c0),
       .modelCall (mkRequest2 (messages ++ [.user user_input]))] ∧
    ((chat_inner env user_input messages store).effects.all fun e => !e.isInvoke) = true ∧
    (chat_inner env user_input messages store).messages = messages ++ [.user user_input] ∧
    (chat_inner env user_input messages store).result = .ok c2.message.content := by
  unfold chat_inner afterLoop
  simp [h1, h3, decide_eq_false h2, Effect.isInvoke]

/-- The uniform model response used by witnesses: finish reason `Stop`,
content `"ok"`, no tool calls. -/
def plainChoice : Choice :=
  { finish_reason := some .stop
    message := { content := some "ok", tool_calls := none } }

/-- A concrete environment whose model never requests tools. -/
def plainEnv : Env :=
  { modelRespond := fun _ => ⟨[plainChoice]⟩
    debugFmt := fun _ => "dbg"
    parseArgs := fun _ => .ok []
    weatherInner := fun _ => none
    pageText := fun _ => .error ()
    now := "now" }

/-- Witness for C2 in the concrete no-tool environment. -/
theorem no_toolcalls_still_second_round_witness :
    (chat_inner plainEnv "hi" initialMessages none).effects =
      [.modelCall (mkRequest1 (initialMessages ++ [.user "hi"])),
       .send "ik8" "general" (plainEnv.debugFmt plainChoice),
       .modelCall (mkRequest2 (initialMessages ++ [.user "hi"]))] ∧
    ((chat_inner plainEnv "hi" initialMessages none).effects.all fun e => !e.isInvoke) = true ∧
    (chat_inner plainEnv "hi" initialMessages none).messages
        = initialMessages ++ [.user "hi"] ∧
    (chat_inner plainEnv "hi" initialMessages none).result = .ok (some "ok") :=
  no_toolcalls_still_second_round plainEnv "hi" initialMessages none plainChoice plainChoice
    rfl (by decide) rfl

/-! ## C9 -/

/-- C9 counterexample: in a run of `chat_inner`, request #1 carries
`max_tokens = 512` but request #2 carries no max-token ceiling at all, so
request #2 does not apply the same bounded ceiling as request #1. -/
theorem second_round_ceiling_counterexample :
    (modelCallReqs (chat_inner plainEnv "hi" initialMessages none).effects).map
        CreateChatCompletionRequest.max_tokens = [some 512, none] ∧
    some 512 ≠ (none : Option Nat) :=
  ⟨rfl, by decide⟩

/-- C9 as amended: whenever `chat_inner` returns (rather than failing),
exactly two model calls occur; request #1 carries the conversation plus the
new user message, the tool registry, and `max_tokens = 512`; request #2
carries the full conversation state including any appended function results
and offers no tools, but sets no max-token ceiling. -/
theorem second_request_shape (env : Env) (user_input : String)
    (messages : List ChatCompletionRequestMessage) (store : Option Json)
    (o : Option String)
    (hok : (chat_inner env user_input messages store).result = .ok o) :
    modelCallReqs (chat_inner env user_input messages store).effects =
      [mkRequest1 (messages ++ [.user user_input]),
       mkRequest2 (chat_inner env user_input messages store).messages] ∧
    (mkRequest1 (messages ++ [.user user_input])).max_tokens = some 512 ∧
    (mkRequest1 (messages ++ [.user user_input])).tools = some TOOLS ∧
    (mkRequest2 (chat_inner env user_input messages store).messages).max_tokens = none ∧
    (mkRequest2 (chat_inner env user_input messages store).messages).tools = none ∧
    (mkRequest2 (chat_inner env user_input messages store).messages).messages =
      (chat_inner env user_input messages store).messages := by
  unfold chat_inner at hok ⊢
  rcases hh : (env.modelRespond (mkRequest1 (messages ++ [.user user_input]))).choices.head?
    with _ | check
  · simp [hh] at hok
  · simp only [hh] at hok ⊢
    by_cases hfr : check.finish_reason = some FinishReason.toolCalls
    · simp only [Option.map_some', Option.getD_some, decide_eq_true hfr, if_true] at hok ⊢
      rcases htc : check.message.tool_calls with _ | tool_calls
      · simp [htc] at hok
      · simp only [htc] at hok ⊢
        rcases hp : processToolCalls env tool_calls
            ⟨messages ++ [.user user_input], store,
             [.modelCall (mkRequest1 (messages ++ [.user user_input])),
              .send "ik8" "general" (env.debugFmt check)]⟩ with ⟨s, e⟩
        rcases e with _ | e
        · simp only [hp]
          obtain ⟨mt, et, _, _, h3, h4⟩ := processToolCalls_shape env tool_calls
            ⟨messages ++ [.user user_input], store,
             [.modelCall (mkRequest1 (messages ++ [.user user_input])),
              .send "ik8" "general" (env.debugFmt check)]⟩
          rw [hp] at h3
          obtain ⟨he, hm⟩ := afterLoop_shape env s
          refine ⟨?_, rfl, rfl, rfl, rfl, rfl⟩
          rw [he, hm, modelCallReqs_append, h3, modelCallReqs_append, h4]
          rfl
        · simp [hp] at hok
    · simp only [Option.map_some', Option.getD_some, decide_eq_false hfr,
        Bool.false_eq_true, if_false] at hok ⊢
      obtain ⟨he, hm⟩ := afterLoop_shape env
        ⟨messages ++ [.user user_input], store,
         [.modelCall (mkRequest1 (messages ++ [.user user_input])),
          .send "ik8" "general" (env.debugFmt check)]⟩
      refine ⟨?_, rfl, rfl, rfl, rfl, rfl⟩
      rw [he, hm, modelCallReqs_append]
      rfl

/-- Witness for the amended C9 in the concrete no-tool environment. -/
theorem second_request_shape_witness :
    modelCallReqs (chat_inner plainEnv "hi" initialMessages none).effects =
      [mkRequest1 (initialMessages ++ [.user "hi"]),
       mkRequest2 (chat_inner plainEnv "hi" initialMessages none).messages] ∧
    (mkRequest1 (initialMessages ++ [.user "hi"])).max_tokens = some 512 ∧
    (mkRequest1 (initialMessages ++ [.user "hi"])).tools = some TOOLS ∧
    (mkRequest2 (chat_inner plainEnv "hi" initialMessages none).messages).max_tokens = none ∧
    (mkRequest2 (chat_inner plainEnv "hi" initialMessages none).messages).tools = none ∧
    (mkRequest2 (chat_inner plainEnv "hi" initialMessages none).messages).messages =
      (chat_inner plainEnv "hi" initialMessages none).messages :=
  second_request_shape plainEnv "hi" initialMessages none (some "ok") rfl

lemma chat_inner_messages_shape (env : Env) (user_input : String)
    (messages : List ChatCompletionRequestMessage) (store : Option Json) :
    ∃ tail, (chat_inner env user_input messages store).messages
        = messages ++ .user user_input :: tail ∧
      tail.all isFunctionMsg = true := by
  unfold chat_inner
  rcases hh : (env.modelRespond (mkRequest1 (messages ++ [.user user_input]))).choices.head?
    with _ | check
  · exact ⟨[], by simp [hh], rfl⟩
  · simp only [hh]
    by_cases hfr : check.finish_reason = some FinishReason.toolCalls
    · simp only [Option.map_some', Option.getD_some, decide_eq_true hfr, if_true]
      rcases htc : check.message.tool_calls with _ | tool_calls
      · exact ⟨[], by simp, rfl⟩
      · obtain ⟨mt, et, h1, h2, _, _⟩ := processToolCalls_shape env tool_calls
          ⟨messages ++ [.user user_input], store,
           [.modelCall (mkRequest1 (messages ++ [.user user_input])),
            .send "ik8" "general" (env.debugFmt check)]⟩
        rcases hp : processToolCalls env tool_calls
            ⟨messages ++ [.user user_input], store,
             [.modelCall (mkRequest1 (messages ++ [.user user_input])),
              .send "ik8" "general" (env.debugFmt check)]⟩ with ⟨s, e⟩
        rw [hp] at h1
        rcases e with _ | e
        · obtain ⟨_, hm⟩ := afterLoop_shape env s
          exact ⟨mt, by simp [hp, hm]; simpa using h1, h2⟩
        · exact ⟨mt, by simp [hp]; simpa using h1, h2⟩
    · simp only [Option.map_some', Option.getD_some, decide_eq_false hfr,
        Bool.false_eq_true, if_false]
      obtain ⟨_, hm⟩ := afterLoop_shape env
        ⟨messages ++ [.user user_input], store,
         [.modelCall (mkRequest1 (messages ++ [.user user_input])),
          .send "ik8" "general" (env.debugFmt check)]⟩
      exact ⟨[], by simp [hm], rfl⟩

lemma runChat_shape (env : Env) (workspace channel user_input : String)
    (st : HandlerState) (eff : List Effect) :
    ∃ restEff tail,
      (runChat env workspace channel user_input st eff).effects = eff ++ restEff ∧
      (runChat env workspace channel user_input st eff).st.messages
        = st.messages ++ .user user_input :: tail ∧
      tail.all isFunctionMsg = true := by
  obtain ⟨tail, hm, ht⟩ := chat_inner_messages_shape env user_input st.messages st.store
  unfold runChat
  rcases hr : (chat_inner env user_input st.messages st.store).result with f | o
  · cases f
    · exact ⟨(chat_inner env user_input st.messages st.store).effects, tail,
        by simp [hr], by simp [hr, hm], ht⟩
    · exact ⟨(chat_inner env user_input st.messages st.store).effects
          ++ [.send workspace channel ""], tail,
        by simp [hr], by simp [hr, hm], ht⟩
  · rcases o with _ | output
    · exact ⟨(chat_inner env user_input st.messages st.store).effects
          ++ [.storeDel "in_chat"], tail,
        by simp [hr], by simp [hr, hm], ht⟩
    · exact ⟨(chat_inner env user_input st.messages st.store).effects
          ++ [.send workspace channel output], tail,
        by simp [hr], by simp [hr, hm], ht⟩

/-! ## C3 -/

/-- C3 (evaluation at the failing input): for a non-trigger message, when the
`"in_chat"` key is absent the handler does NOT return silently — the gate's
`get("in_chat").unwrap_or(json!("false")).as_bool().unwrap()` defaults to the
JSON **string** `"false"`, whose `as_bool` is `None`, so the `unwrap` panics.
When the key holds boolean `false` the claimed behavior does hold: the
handler returns with no model call, no outbound message and no state
mutation. -/
theorem absent_flag_panics :
    handler plainEnv "tool_calls" "w" "c" "hello" ⟨initialMessages, none⟩
        = ⟨⟨initialMessages, none⟩, [], true⟩ ∧
    handler plainEnv "tool_calls" "w" "c" "hello"
        ⟨initialMessages, some (Json.bool false)⟩
      = ⟨⟨initialMessages, some (Json.bool false)⟩, [], false⟩ :=
  ⟨rfl, rfl⟩

/-! ## C4 -/

/-- C4 counterexample: for the trigger word `"tool_calls"` and the message
`"tool_calls hi tool_calls"`, the utterance appended as the user message is
`" hi "` — `msg.replace(&trigger_word, "")` removes every occurrence of the
trigger word — whereas stripping only the leading prefix would give
`" hi tool_calls"`. -/
theorem trigger_strip_counterexample :
    (handler witnessEnv "tool_calls" "w" "c" "tool_calls hi tool_calls"
        ⟨initialMessages, none⟩).st.messages
      = initialMessages ++ [.user " hi "] ∧
    ChatCompletionRequestMessage.user " hi "
      ≠ ChatCompletionRequestMessage.user " hi tool_calls" :=
  ⟨rfl, by decide⟩

/-- C4 as amended: for every message starting with the trigger word,
regardless of prior flag state, the handler first sets `"in_chat"` to JSON
`true` and uses the message with **every** occurrence of the trigger word
removed (not just the leading prefix) as the user utterance. -/
theorem trigger_sets_flag_and_replaces_all (env : Env)
    (trigger_word workspace channel msg : String) (st : HandlerState)
    (h : rustStartsWith msg trigger_word = true) :
    (handler env trigger_word workspace channel msg st).effects.head?
        = some (.storeSet "in_chat" (Json.bool true)) ∧
    ∃ tail, (handler env trigger_word workspace channel msg st).st.messages
        = st.messages ++ .user (rustReplace msg trigger_word "") :: tail ∧
      tail.all isFunctionMsg = true := by
  unfold handler
  simp only [h, if_true]
  obtain ⟨restEff, tail, he, hm, ht⟩ := runChat_shape env workspace channel
    (rustReplace msg trigger_word "") { st with store := some (Json.bool true) }
    [.storeSet "in_chat" (Json.bool true)]
  exact ⟨by rw [he]; rfl, tail, by simpa using hm, ht⟩

/-- Witness for the amended C4 at a concrete triggered message. -/
theorem trigger_sets_flag_and_replaces_all_witness :
    (handler plainEnv "tool_calls" "w" "c" "tool_calls hi"
        ⟨initialMessages, none⟩).effects.head?
        = some (.storeSet "in_chat" (Json.bool true)) ∧
    ∃ tail, (handler plainEnv "tool_calls" "w" "c" "tool_calls hi"
        ⟨initialMessages, none⟩).st.messages
        = initialMessages ++ .user (rustReplace "tool_calls hi" "tool_calls" "") :: tail ∧
      tail.all isFunctionMsg = true :=
  trigger_sets_flag_and_replaces_all plainEnv "tool_calls" "w" "c" "tool_calls hi"
    ⟨initialMessages, none⟩ (by decide)

/-! ## C5 -/

/-- C5: a dispatched tool call whose dispatch succeeds appends a function
message carrying exactly the call's name and the dispatch content, and that
content is the capability wrapper's output: for `getWeather` the formatted
report on provider success and the fixed `"No city or incorrect spelling"`
fallback on provider failure, for `scraper` the fetched text on success and
the fixed `"failed to get webpage"` fallback on failure, for `getTimeOfDay`
the formatted clock reading.  Capability failures still yield `.ok` content
(they are never propagated as errors), and the content is always the
wrapper's formatted output, never the raw provider payload. -/
theorem function_message_content (env : Env) (tc : ChatCompletionMessageToolCall)
    (s : LoopState) :
    (tc.function.name = "getWeather" →
        ∀ args, env.parseArgs tc.function.arguments = .ok args →
        ∀ city, args.lookup "city" = some city →
          (dispatchToolCall env tc.function s.store).content
              = .ok (get_weather city (env.weatherInner city)) ∧
          (env.weatherInner city = none →
            get_weather city (env.weatherInner city) = "No city or incorrect spelling") ∧
          (∀ w, env.weatherInner city = some w →
            get_weather city (env.weatherInner city) = weatherReport city w))
    ∧ (tc.function.name = "scraper" →
        ∀ args, env.parseArgs tc.function.arguments = .ok args →
        ∀ u, args.lookup "url" = some u →
          (dispatchToolCall env tc.function s.store).content
              = .ok (scraper u (env.pageText u)) ∧
          (env.pageText u = .error () →
            scraper u (env.pageText u) = "failed to get webpage") ∧
          (∀ txt, env.pageText u = .ok txt → scraper u (env.pageText u) = txt))
    ∧ (tc.function.name = "getTimeOfDay" →
        (dispatchToolCall env tc.function s.store).content
          = .ok (get_time_of_day env.now))
    ∧ (∀ content, (dispatchToolCall env tc.function s.store).content = .ok content →
        (processToolCalls env [tc] s).1.messages
          = s.messages ++ [.function tc.function.name content]) := by
  refine ⟨?_, ?_, ?_, ?_⟩
  · intro h args hargs city hcity
    refine ⟨by simp [dispatchToolCall, h, hargs, hcity], ?_, ?_⟩
    · intro hw
      simp [get_weather, hw]
    · intro w hw
      simp [get_weather, hw]
  · intro h args hargs u hu
    refine ⟨by simp [dispatchToolCall, h, hargs, hu], ?_, ?_⟩
    · intro hp
      simp [scraper, hp]
    · intro txt hp
      simp [scraper, hp]
  · intro h
    simp [dispatchToolCall, h]
  · intro content hcontent
    simp [processToolCalls, hcontent]

/-- Witness for C5: a concrete `getTimeOfDay` dispatch and its appended
function message. -/
theorem function_message_content_witness :
    (dispatchToolCall witnessEnv ⟨"getTimeOfDay", ""⟩
        (LoopState.mk initialMessages none []).store).content
        = .ok (get_time_of_day witnessEnv.now) ∧
    (processToolCalls witnessEnv [⟨⟨"getTimeOfDay", ""⟩⟩]
        (LoopState.mk initialMessages none [])).1.messages
      = initialMessages ++ [.function "getTimeOfDay" (get_time_of_day witnessEnv.now)] := by
  obtain ⟨-, -, h3, h4⟩ := function_message_content witnessEnv ⟨⟨"getTimeOfDay", ""⟩⟩
    (LoopState.mk initialMessages none [])
  exact ⟨h3 rfl, h4 (get_time_of_day witnessEnv.now) (h3 rfl)⟩

lemma notConfiguredChannel (workspace channel : String)
    (hwc : ¬(workspace = "ik8" ∧ channel = "general")) :
    (("ik8" : String) == workspace && ("general" : String) == channel) = false := by
  by_cases h1 : workspace = "ik8"
  · subst h1
    by_cases h2 : channel = "general"
    · exact absurd ⟨rfl, h2⟩ hwc
    · have h3 : (("general" : String) == channel) = false :=
        beq_eq_false_iff_ne.2 (fun hEq => h2 hEq.symm)
      simp [h3]
  · have h3 : (("ik8" : String) == workspace) = false :=
      beq_eq_false_iff_ne.2 (fun hEq => h1 hEq.symm)
    simp [h3]

/-! ## C6 -/

/-- An environment whose model requests a `getWeather` call with an argument
payload that fails to parse. -/
def badArgsEnv : Env :=
  { modelRespond := fun _ =>
      ⟨[{ finish_reason := some .toolCalls
          message := { content := some "final"
                       tool_calls := some [⟨⟨"getWeather", "notjson"⟩⟩] } }]⟩
    debugFmt := fun _ => "dbg"
    parseArgs := fun _ => .error ()
    weatherInner := fun _ => none
    pageText := fun _ => .error ()
    now := "now" }

/-- C6 counterexample: when the tool-call argument payload fails to parse,
the propagated `Err` lands in the handler's wildcard match arm, which falls
through and sends the still-empty `out` string — an outbound message IS sent
to the channel, contradicting the claim that the dispatch aborts without
sending anything. -/
theorem error_path_sends_empty_counterexample :
    (handler badArgsEnv "tool_calls" "w" "c" "tool_calls hi"
        ⟨initialMessages, none⟩).effects.getLast? = some (.send "w" "c" "") ∧
    (handler badArgsEnv "tool_calls" "w" "c" "tool_calls hi"
        ⟨initialMessages, none⟩).panicked = false :=
  ⟨rfl, rfl⟩

/-- The uniform single-tool-call model response used by the failure-path and
scenario theorems. -/
def toolCallResponse (final : String) (tc : ChatCompletionMessageToolCall) :
    CreateChatCompletionResponse :=
  ⟨[{ finish_reason := some .toolCalls
      message := { content := some final, tool_calls := some [tc] } }]⟩

/-- C6 as amended: for a triggered message, (a) a malformed model response
(no choices) panics at the `unwrap` and nothing is ever sent; (b) a JSON
parse failure of the tool arguments aborts the dispatch as a propagated
error, but the handler then still sends the empty string to the configured
channel; (c) a missing required argument key panics at the map indexing and
nothing is sent to the configured channel. -/
theorem failure_paths_amended (env : Env)
    (trigger_word workspace channel msg : String) (st : HandlerState)
    (tc : ChatCompletionMessageToolCall)
    (htrig : rustStartsWith msg trigger_word = true) :
    ((∀ q, env.modelRespond q = ⟨[]⟩) →
      (handler env trigger_word workspace channel msg st).panicked = true ∧
      (handler env trigger_word workspace channel msg st).effects.filter Effect.isSend
        = [])
    ∧ ((∀ q, env.modelRespond q = toolCallResponse "final" tc) →
        tc.function.name = "getWeather" →
        env.parseArgs tc.function.arguments = .error () →
        (handler env trigger_word workspace channel msg st).panicked = false ∧
        (handler env trigger_word workspace channel msg st).effects.getLast?
          = some (.send workspace channel ""))
    ∧ ((∀ q, env.modelRespond q = toolCallResponse "final" tc) →
        tc.function.name = "getWeather" →
        env.parseArgs tc.function.arguments = .ok [] →
        ¬(workspace = "ik8" ∧ channel = "general") →
        (handler env trigger_word workspace channel msg st).panicked = true ∧
        (handler env trigger_word workspace channel msg st).effects.filter
            (Effect.isSendTo workspace channel) = []) := by
  refine ⟨?_, ?_, ?_⟩
  · intro henv
    simp [handler, htrig, runChat, chat_inner, henv, Effect.isSend]
  · intro henv hname hparse
    simp [handler, htrig, runChat, chat_inner, henv, toolCallResponse,
      processToolCalls, dispatchToolCall, hname, hparse]
  · intro henv hname hparse hwc
    have hfalse := notConfiguredChannel workspace channel hwc
    simp [handler, htrig, runChat, chat_inner, henv, toolCallResponse,
      processToolCalls, dispatchToolCall, hname, hparse, Effect.isSendTo, hfalse]

/-- Witness for the amended C6: part (b) at the concrete bad-arguments
environment. -/
theorem failure_paths_amended_witness :
    (handler badArgsEnv "tool_calls" "w" "c" "tool_calls hi"
        ⟨initialMessages, none⟩).panicked = false ∧
    (handler badArgsEnv "tool_calls" "w" "c" "tool_calls hi"
        ⟨initialMessages, none⟩).effects.getLast? = some (.send "w" "c" "") :=
  (failure_paths_amended badArgsEnv "tool_calls" "w" "c" "tool_calls hi"
      ⟨initialMessages, none⟩ ⟨⟨"getWeather", "notjson"⟩⟩ (by decide)).2.1
    (fun _ => rfl) rfl rfl

/-! ## C7 -/

/-- An environment realizing the end-to-end weather scenario: the model
requests `getWeather`, the provider fails (fallback string), the second
round's content is `"final"`. -/
def weatherSceneEnv : Env :=
  { modelRespond := fun _ => toolCallResponse "final" ⟨⟨"getWeather", "args"⟩⟩
    debugFmt := fun _ => "dbg"
    parseArgs := fun _ => .ok [("city", "Rome")]
    weatherInner := fun _ => none
    pageText := fun _ => .error ()
    now := "now" }

/-- C7 counterexample: in the end-to-end handled-utterance scenario the
program sends THREE outbound messages — the diagnostic dump of the first
choice and the raw weather result both go to the hardcoded
`("ik8", "general")` channel — so the final reply is not the only outbound
message sent by the program. -/
theorem debug_sends_counterexample :
    (handler weatherSceneEnv "tool_calls" "w" "c" "tool_calls weather in Rome"
        ⟨initialMessages, none⟩).effects.filter Effect.isSend
      = [.send "ik8" "general" "dbg",
         .send "ik8" "general" "No city or incorrect spelling",
         .send "w" "c" "final"] := rfl

/-- C7 as amended: in the end-to-end handled-utterance scenario the sends
are exactly the diagnostic dump and the raw tool result, both to the
hardcoded `("ik8", "general")` channel, plus the final reply — and the final
reply is the only outbound message sent to the configured
workspace/channel. -/
theorem final_reply_only_send_to_channel (env : Env)
    (trigger_word workspace channel msg final city : String)
    (st : HandlerState) (tc : ChatCompletionMessageToolCall)
    (args : List (String × String))
    (htrig : rustStartsWith msg trigger_word = true)
    (henv : ∀ q, env.modelRespond q = toolCallResponse final tc)
    (hname : tc.function.name = "getWeather")
    (hargs : env.parseArgs tc.function.arguments = .ok args)
    (hcity : args.lookup "city" = some city)
    (hwc : ¬(workspace = "ik8" ∧ channel = "general")) :
    (handler env trigger_word workspace channel msg st).panicked = false ∧
    (handler env trigger_word workspace channel msg st).effects.filter Effect.isSend
      = [.send "ik8" "general"
           (env.debugFmt { finish_reason := some .toolCalls
                           message := { content := some final
                                        tool_calls := some [tc] } }),
         .send "ik8" "general" (get_weather city (env.weatherInner city)),
         .send workspace channel final] ∧
    (handler env trigger_word workspace channel msg st).effects.filter
        (Effect.isSendTo workspace channel)
      = [.send workspace channel final] := by
  have hfalse := notConfiguredChannel workspace channel hwc
  refine ⟨?_, ?_, ?_⟩ <;>
    simp [handler, htrig, runChat, chat_inner, afterLoop, henv, toolCallResponse,
      processToolCalls, dispatchToolCall, hname, hargs, hcity,
      Effect.isSend, Effect.isSendTo, hfalse]

/-- Witness for the amended C7 at the concrete weather scenario. -/
theorem final_reply_only_send_to_channel_witness :
    (handler weatherSceneEnv "tool_calls" "w" "c" "tool_calls weather in Rome"
        ⟨initialMessages, none⟩).panicked = false ∧
    (handler weatherSceneEnv "tool_calls" "w" "c" "tool_calls weather in Rome"
        ⟨initialMessages, none⟩).effects.filter Effect.isSend
      = [.send "ik8" "general"
           (weatherSceneEnv.debugFmt
             { finish_reason := some .toolCalls
               message := { content := some "final"
                            tool_calls := some [⟨⟨"getWeather", "args"⟩⟩] } }),
         .send "ik8" "general" (get_weather "Rome" (weatherSceneEnv.weatherInner "Rome")),
         .send "w" "c" "final"] ∧
    (handler weatherSceneEnv "tool_calls" "w" "c" "tool_calls weather in Rome"
        ⟨initialMessages, none⟩).effects.filter (Effect.isSendTo "w" "c")
      = [.send "w" "c" "final"] :=
  final_reply_only_send_to_channel weatherSceneEnv "tool_calls" "w" "c"
    "tool_calls weather in Rome" "final" "Rome" ⟨initialMessages, none⟩
    ⟨⟨"getWeather", "args"⟩⟩ [("city", "Rome")]
    (by decide) (fun _ => rfl) rfl rfl rfl (by decide)

/-! ## C10 -/

lemma all_isFunctionMsg_isConvAppend (tail : List ChatCompletionRequestMessage)
    (h : tail.all isFunctionMsg = true) : tail.all isConvAppend = true := by
  induction tail with
  | nil => rfl
  | cons m rest ih =>
    simp only [List.all_cons, Bool.and_eq_true] at h ⊢
    exact ⟨by cases m <;> simp_all [isFunctionMsg, isConvAppend], ih h.2⟩

lemma handler_append (env : Env) (trigger_word workspace channel msg : String)
    (st : HandlerState) :
    ∃ tail, (handler env trigger_word workspace channel msg st).st.messages
        = st.messages ++ tail ∧ tail.all isConvAppend = true := by
  unfold handler
  by_cases htrig : rustStartsWith msg trigger_word = true
  · simp only [htrig, if_true]
    obtain ⟨restEff, tail, _, hm, ht⟩ := runChat_shape env workspace channel
      (rustReplace msg trigger_word "") { st with store := some (Json.bool true) }
      [.storeSet "in_chat" (Json.bool true)]
    refine ⟨.user (rustReplace msg trigger_word "") :: tail, by simpa using hm, ?_⟩
    simp only [List.all_cons, Bool.and_eq_true]
    exact ⟨rfl, all_isFunctionMsg_isConvAppend tail ht⟩
  · rw [Bool.not_eq_true] at htrig
    simp only [htrig, Bool.false_eq_true, if_false]
    rcases hb : (st.store.getD (Json.str "false")).asBool with _ | b
    · exact ⟨[], by simp, rfl⟩
    · rcases b with _ | _
      · exact ⟨[], by simp, rfl⟩
      · simp only [Bool.not_false, Bool.not_true, Bool.false_eq_true, if_false]
        obtain ⟨restEff, tail, _, hm, ht⟩ := runChat_shape env workspace channel msg st []
        refine ⟨.user msg :: tail, by simpa using hm, ?_⟩
        simp only [List.all_cons, Bool.and_eq_true]
        exact ⟨rfl, all_isFunctionMsg_isConvAppend tail ht⟩

lemma runEvents_head (trigger_word workspace channel : String)
    (events : List (Env × String)) :
    ∀ (st : HandlerState) (m : ChatCompletionRequestMessage),
      st.messages.head? = some m →
      (runEvents trigger_word workspace channel events st).messages.head? = some m := by
  induction events with
  | nil => intro st m h; exact h
  | cons ev rest ih =>
    intro st m h
    rcases ev with ⟨env, msg⟩
    unfold runEvents
    apply ih
    obtain ⟨tail, hm, _⟩ := handler_append env trigger_word workspace channel msg st
    rw [hm]
    rcases hmsgs : st.messages with _ | ⟨m0, restm⟩
    · rw [hmsgs] at h; simp at h
    · rw [hmsgs] at h; simpa using h

/-- C10: every handler invocation only appends to the conversation — the new
message list is the old one followed by a tail of user and function messages
(one user message per processed utterance plus one function message per
dispatched tool call; nothing is removed or reordered) — and from the
initial state, whose single message is the startup system message, every
reachable state still has that exact system message first. -/
theorem conversation_monotone_invariant :
    (∀ (env : Env) (trigger_word workspace channel msg : String) (st : HandlerState),
      ∃ tail, (handler env trigger_word workspace channel msg st).st.messages
          = st.messages ++ tail ∧ tail.all isConvAppend = true)
    ∧ (∀ (trigger_word workspace channel : String) (events : List (Env × String)),
        (runEvents trigger_word workspace channel events
            ⟨initialMessages, none⟩).messages.head?
          = some (.system "Perform function requests for the user")) :=
  ⟨handler_append,
   fun trigger_word workspace channel events =>
     runEvents_head trigger_word workspace channel events ⟨initialMessages, none⟩
       (.system "Perform function requests for the user") rfl⟩
